import Mathlib

/-!
Verification development for the lexical/syntactic front-end of the SL
interpreter (a TypeScript repository).  The definitions below are shallow
embeddings of:

* `src/lexer.ts` — the scanner generation cited by the scanner claims
  (namespace `SL.lexer`);
* the scanner generation with line tracking (`Token` carrying
  `lineNumber`/`column`, the one the parser and its tests consume)
  (namespace `SL.lexer2`);
* the parser generation contained in `src/parser/errors.ts`
  (`ErrorType`, `ParsingError`, `Parser`) together with the syntax-tree
  model of `src/parser/ast.ts` (namespace `SL`).

Mutable scanner state `{ position, readPosition, ch }` is collapsed using
the invariant established by the constructor and maintained by `readChar`:
after every `readChar`, `position = readPosition - 1` and
`ch = input[position]` (the empty sentinel `""` when out of range).  The
embedding therefore keeps a single cursor `pos` (the source's `position`),
with `readPosition = pos + 1` and `ch = input.get? pos` (`none` plays the
role of the `""` sentinel).  `while`-loops over characters are rendered
with `List.takeWhile` over `input.drop pos`, which advances the cursor by
exactly the number of characters the source loop consumes.  The `throw`
for disallowed keywords is rendered as `Except.error`.
-/

namespace SL

/-- Token kinds, from the `TokenType` union of the lexer sources (the
superset including `SALIR`, present in the line-tracking generation;
`src/lexer.ts` never produces it).  `INICIO_KW` renders the source's
`INICIO` kind (the `tokenTypeStr` rendering below keeps the source
spelling). -/
inductive TokenType where
  | VAR | VARIABLES | CONST | CONSTANTES | TIPOS | TIPO | SUBRUTINA
  | RETORNA | REF | INICIO_KW | FIN | PROGRAMA | SI | SINO | MIENTRAS
  | REPETIR | PASO | SALIR | EVAL | CASO | LOGICO | NUMERICO | CADENA
  | REGISTRO | VECTOR | MATRIZ | AND | OR | NOT
  | LIB | LIBEXT | ARCHIVO
  | SEMICOLON | DQUOTE | SQUOTE | SLASH | ASTERISK | LBRACE
  | RBRACE | LPAREN | RPAREN | COLON | ASSIGN | GT
  | LT | PLUS | MINUS | POW | NEWLINE | RBRACKET | LBRACKET
  | NUMBER | IDENTIFIER | EOF | ILLEGAL
deriving DecidableEq, Repr

/-- `isLetter` of the lexer: the regex `[a-zA-Z_]`. -/
def isLetter (c : Char) : Bool :=
  (('a' ≤ c && c ≤ 'z') || ('A' ≤ c && c ≤ 'Z') || c = '_')

/-- `isDigit` of the lexer: the regex `[0-9]`. -/
def isDigit (c : Char) : Bool :=
  ('0' ≤ c && c ≤ '9')

/-- Identifier continuation characters: `isLetter(ch) || isDigit(ch)`. -/
def isIdentChar (c : Char) : Bool :=
  isLetter c || isDigit c

/-- Whitespace skipped by `skipWhitespace`: space, tab, carriage return. -/
def isSkippable (c : Char) : Bool :=
  (c = ' ' || c = '\t' || c = '\r')

/-- `String.toLowerCase()` restricted to what identifiers can contain
(ASCII letters, digits, underscore), as used for keyword lookup. -/
def toLowerCase (s : String) : String :=
  String.mk (s.data.map Char.toLower)

namespace lexer

/-- Token of `src/lexer.ts`: `{ type, literal, pos }`. -/
structure Token where
  type : TokenType
  literal : String
  pos : Nat
deriving DecidableEq, Repr

/-- The `keywords` record of `src/lexer.ts` (this generation has no
`salir` entry). -/
def keywords : List (String × TokenType) :=
  [("var", .VAR), ("variables", .VARIABLES), ("const", .CONST),
   ("constantes", .CONSTANTES), ("tipos", .TIPOS), ("tipo", .TIPO),
   ("subrutina", .SUBRUTINA), ("retorna", .RETORNA), ("ref", .REF),
   ("inicio", .INICIO_KW), ("fin", .FIN), ("programa", .PROGRAMA),
   ("si", .SI), ("sino", .SINO), ("mientras", .MIENTRAS),
   ("repetir", .REPETIR), ("paso", .PASO), ("eval", .EVAL),
   ("caso", .CASO), ("logico", .LOGICO), ("numerico", .NUMERICO),
   ("cadena", .CADENA), ("registro", .REGISTRO), ("vector", .VECTOR),
   ("matriz", .MATRIZ), ("and", .AND), ("or", .OR), ("not", .NOT),
   ("lib", .LIB), ("libext", .LIBEXT), ("archivo", .ARCHIVO)]

/-- Collapsed scanner state (see the header comment): `pos` is the
source's `position`; `readPosition = pos + 1`; `ch = input.get? pos`. -/
structure LexState where
  input : List Char
  pos : Nat
deriving DecidableEq, Repr

/-- The buffered current character `this.ch` (`none` for the `""`
sentinel). -/
def curCh (s : LexState) : Option Char :=
  s.input.get? s.pos

/-- `peekChar()`: the character at `readPosition = pos + 1`. -/
def peekCh (s : LexState) : Option Char :=
  s.input.get? (s.pos + 1)

/-- `readChar()`: advance the cursor one character. -/
def readChar (s : LexState) : LexState :=
  { s with pos := s.pos + 1 }

/-- A `while (p(this.ch)) this.readChar()` loop: advances the cursor past
the maximal run of characters satisfying `p`. -/
def advanceWhile (p : Char → Bool) (s : LexState) : LexState :=
  { s with pos := s.pos + ((s.input.drop s.pos).takeWhile p).length }

/-- `skipWhitespace()`. -/
def skipWhitespace (s : LexState) : LexState :=
  advanceWhile isSkippable s

/-- `readIdentifier()`: maximal munch of letters/digits/underscore,
returning the scanned slice together with the advanced state. -/
def readIdentifier (s : LexState) : String × LexState :=
  (String.mk ((s.input.drop s.pos).takeWhile isIdentChar),
   advanceWhile isIdentChar s)

/-- `readNumber()`: maximal munch of digits. -/
def readNumber (s : LexState) : String × LexState :=
  (String.mk ((s.input.drop s.pos).takeWhile isDigit),
   advanceWhile isDigit s)

/-- `newToken(type, ch)` for one-character tokens. -/
def newToken (t : TokenType) (c : Char) (s : LexState) : Token :=
  ⟨t, String.mk [c], s.pos⟩

/-- The line-comment branch at the top of `nextToken()`: when positioned
at `//`, consume through end of line (or end of input), skip the
newline, and re-skip whitespace. -/
def commentSkip (s : LexState) : LexState :=
  if curCh s = some '/' && peekCh s = some '/' then
    skipWhitespace (readChar (advanceWhile (fun c => c != '\n') (readChar s)))
  else s

/-- `keywords[literal.toLowerCase()] || "IDENTIFIER"` for the
identifier the scanner is positioned at. -/
def keywordType (s : LexState) : TokenType :=
  (keywords.lookup (toLowerCase (readIdentifier s).1)).getD .IDENTIFIER

/-- The non-empty cases of the `switch (this.ch)` dispatch of
`nextToken()`, including the final `readChar()` executed for every case
that breaks out of the switch.  The identifier and number branches
return directly without that `readChar`, as in the source; a disallowed
keyword throws (`Except.error`). -/
def dispatchChar (c : Char) (s : LexState) : Except String (Token × LexState) :=
  if c = ';' then .ok (newToken .SEMICOLON c s, readChar s)
  else if c = '"' then .ok (newToken .DQUOTE c s, readChar s)
  else if c = '\'' then .ok (newToken .SQUOTE c s, readChar s)
  else if c = '/' then .ok (newToken .SLASH c s, readChar s)
  else if c = '*' then .ok (newToken .ASTERISK c s, readChar s)
  else if c = '{' then .ok (newToken .LBRACE c s, readChar s)
  else if c = '}' then .ok (newToken .RBRACE c s, readChar s)
  else if c = '[' then .ok (newToken .LBRACKET c s, readChar s)
  else if c = ']' then .ok (newToken .RBRACKET c s, readChar s)
  else if c = '(' then .ok (newToken .LPAREN c s, readChar s)
  else if c = ')' then .ok (newToken .RPAREN c s, readChar s)
  else if c = ':' then .ok (newToken .COLON c s, readChar s)
  else if c = '=' then .ok (newToken .ASSIGN c s, readChar s)
  else if c = '>' then .ok (newToken .GT c s, readChar s)
  else if c = '<' then .ok (newToken .LT c s, readChar s)
  else if c = '+' then .ok (newToken .PLUS c s, readChar s)
  else if c = '-' then .ok (newToken .MINUS c s, readChar s)
  else if c = '^' then .ok (newToken .POW c s, readChar s)
  else if c = '\n' then .ok (newToken .NEWLINE c s, readChar s)
  else
    -- `const literal = readIdentifier(); const type = keywords[...] || ...`;
    -- the source's two locals are written as repeated projections of
    -- `readIdentifier s` / `keywordType s` here.
    if isLetter c then
      if keywordType s = .LIB || keywordType s = .LIBEXT ||
          keywordType s = .ARCHIVO then
        .error ("Token '" ++ (readIdentifier s).1 ++
          "' is reserved but not allowed.")
      else
        .ok (⟨keywordType s, (readIdentifier s).1, (readIdentifier s).2.pos⟩,
             (readIdentifier s).2)
    else if isDigit c then
      .ok (⟨.NUMBER, (readNumber s).1, (readNumber s).2.pos⟩, (readNumber s).2)
    else
      .ok (newToken .ILLEGAL c s, readChar s)

/-- The full `switch (this.ch)`: the `""` sentinel yields `EOF`, any
real character goes through `dispatchChar`. -/
def dispatch (s : LexState) : Except String (Token × LexState) :=
  match curCh s with
  | none => .ok (⟨.EOF, "", s.pos⟩, readChar s)
  | some c => dispatchChar c s

/-- `nextToken()`: skip whitespace, handle a line comment, dispatch. -/
def nextToken (s : LexState) : Except String (Token × LexState) :=
  dispatch (commentSkip (skipWhitespace s))

/-- `lookAhead()`: the source body is exactly `return this.nextToken()`. -/
def lookAhead (s : LexState) : Except String (Token × LexState) :=
  nextToken s

/-- `new Lexer(input)`: the constructor performs one `readChar`, leaving
`position = 0`. -/
def lexInit (input : String) : LexState :=
  ⟨input.data, 0⟩

/-- `n + 1` successive `nextToken()` calls, returning the last token and
state (propagating the fatal throw). -/
def runTokens : Nat → LexState → Except String (Token × LexState)
  | 0, s => nextToken s
  | n + 1, s => do
    let r ← nextToken s
    runTokens n r.2

/-- Decidable observation that a scan ended in the fatal throw. -/
def isLexError : Except String (Token × LexState) → Bool
  | .error _ => true
  | .ok _ => false

end lexer

namespace lexer2

/-!
The scanner generation the parser consumes (`../lexer/lexer.ts` from the
parser's point of view): same tokenisation algorithm, but `Token` carries
`lineNumber`/`column` and the state tracks `currentLine`.  In this
generation the source's `column` field plays the role of `position`
(`readChar` sets `column := readPosition; readPosition++`), so the same
collapse applies: `pos` is the source's `column`, `readPosition = pos+1`,
`currentChar = input.get? pos`.  The transient `column = 0` assignment in
the `NEWLINE` case is dead (immediately overwritten by the trailing
`readChar`) and is absorbed by the collapse.
-/

/-- Token of the line-tracking lexer:
`{ type, literal, lineNumber, column }`. -/
structure Token where
  type : TokenType
  literal : String
  lineNumber : Nat
  column : Int
deriving DecidableEq, Repr

/-- The `keywords` record of this generation (includes `salir`). -/
def keywords : List (String × TokenType) :=
  [("var", .VAR), ("variables", .VARIABLES), ("const", .CONST),
   ("constantes", .CONSTANTES), ("tipos", .TIPOS), ("tipo", .TIPO),
   ("subrutina", .SUBRUTINA), ("retorna", .RETORNA), ("ref", .REF),
   ("inicio", .INICIO_KW), ("fin", .FIN), ("programa", .PROGRAMA),
   ("si", .SI), ("sino", .SINO), ("mientras", .MIENTRAS),
   ("repetir", .REPETIR), ("salir", .SALIR), ("paso", .PASO),
   ("eval", .EVAL), ("caso", .CASO), ("logico", .LOGICO),
   ("numerico", .NUMERICO), ("cadena", .CADENA), ("registro", .REGISTRO),
   ("vector", .VECTOR), ("matriz", .MATRIZ), ("and", .AND), ("or", .OR),
   ("not", .NOT), ("lib", .LIB), ("libext", .LIBEXT),
   ("archivo", .ARCHIVO)]

/-- Collapsed scanner state: `pos` is the source's `column` cursor,
`line` the source's `currentLine`. -/
structure LexState where
  input : List Char
  pos : Nat
  line : Nat
deriving DecidableEq, Repr

/-- The buffered `this.currentChar` (`none` for the `""` sentinel). -/
def curCh (s : LexState) : Option Char :=
  s.input.get? s.pos

/-- `peekChar()`. -/
def peekCh (s : LexState) : Option Char :=
  s.input.get? (s.pos + 1)

/-- `readChar()`. -/
def readChar (s : LexState) : LexState :=
  { s with pos := s.pos + 1 }

/-- A character `while`-loop, as in `SL.lexer.advanceWhile`. -/
def advanceWhile (p : Char → Bool) (s : LexState) : LexState :=
  { s with pos := s.pos + ((s.input.drop s.pos).takeWhile p).length }

/-- `skipWhitespace()`. -/
def skipWhitespace (s : LexState) : LexState :=
  advanceWhile isSkippable s

/-- `readIdentifier()`. -/
def readIdentifier (s : LexState) : String × LexState :=
  (String.mk ((s.input.drop s.pos).takeWhile isIdentChar),
   advanceWhile isIdentChar s)

/-- `readNumber()`. -/
def readNumber (s : LexState) : String × LexState :=
  (String.mk ((s.input.drop s.pos).takeWhile isDigit),
   advanceWhile isDigit s)

/-- `newToken(type, ch)`: `tokenStart = column - ch.length`, and the
token records the current line.  (`column` can momentarily be smaller
than the literal length only for the `EOF`/symbol corner cases the
source also exhibits; the subtraction is over `Int` as in JS.) -/
def newToken (t : TokenType) (lit : String) (s : LexState) : Token :=
  ⟨t, lit, s.line, (s.pos : Int) - lit.length⟩

/-- `skipComments()`. -/
def skipComments (s : LexState) : LexState :=
  if curCh s = some '/' && peekCh s = some '/' then
    skipWhitespace (readChar (advanceWhile (fun c => c != '\n') (readChar s)))
  else s

/-- The non-empty cases of the `switch (this.currentChar)` of this
generation's `nextToken()`.  Differences from `SL.lexer.dispatchChar`:
tokens are built with `newToken` (line + start column), the `NEWLINE`
case increments `currentLine`, and the `ILLEGAL` branch returns without
consuming the offending character (that quirk is faithful to the
source). -/
def dispatchChar (c : Char) (s : LexState) : Except String (Token × LexState) :=
  if c = ';' then .ok (newToken .SEMICOLON (String.mk [c]) s, readChar s)
  else if c = '"' then .ok (newToken .DQUOTE (String.mk [c]) s, readChar s)
  else if c = '\'' then .ok (newToken .SQUOTE (String.mk [c]) s, readChar s)
  else if c = '/' then .ok (newToken .SLASH (String.mk [c]) s, readChar s)
  else if c = '*' then .ok (newToken .ASTERISK (String.mk [c]) s, readChar s)
  else if c = '{' then .ok (newToken .LBRACE (String.mk [c]) s, readChar s)
  else if c = '}' then .ok (newToken .RBRACE (String.mk [c]) s, readChar s)
  else if c = '[' then .ok (newToken .LBRACKET (String.mk [c]) s, readChar s)
  else if c = ']' then .ok (newToken .RBRACKET (String.mk [c]) s, readChar s)
  else if c = '(' then .ok (newToken .LPAREN (String.mk [c]) s, readChar s)
  else if c = ')' then .ok (newToken .RPAREN (String.mk [c]) s, readChar s)
  else if c = ':' then .ok (newToken .COLON (String.mk [c]) s, readChar s)
  else if c = '=' then .ok (newToken .ASSIGN (String.mk [c]) s, readChar s)
  else if c = '>' then .ok (newToken .GT (String.mk [c]) s, readChar s)
  else if c = '<' then .ok (newToken .LT (String.mk [c]) s, readChar s)
  else if c = '+' then .ok (newToken .PLUS (String.mk [c]) s, readChar s)
  else if c = '-' then .ok (newToken .MINUS (String.mk [c]) s, readChar s)
  else if c = '^' then .ok (newToken .POW (String.mk [c]) s, readChar s)
  else if c = '\n' then
    .ok (newToken .NEWLINE (String.mk [c]) s,
         readChar { s with line := s.line + 1 })
  else
    if isLetter c then
      let r := readIdentifier s
      let ty := ((keywords.lookup (toLowerCase r.1)).getD .IDENTIFIER)
      if ty = .LIB || ty = .LIBEXT || ty = .ARCHIVO then
        .error ("Token '" ++ r.1 ++ "' is reserved but not allowed.")
      else
        .ok (newToken ty r.1 r.2, r.2)
    else if isDigit c then
      let r := readNumber s
      .ok (newToken .NUMBER r.1 r.2, r.2)
    else
      .ok (newToken .ILLEGAL (String.mk [c]) s, s)

/-- The full `switch (this.currentChar)` of this generation. -/
def dispatch (s : LexState) : Except String (Token × LexState) :=
  match curCh s with
  | none => .ok (newToken .EOF "" s, readChar s)
  | some c => dispatchChar c s

/-- `nextToken()` of this generation: whitespace, then comments, then the
switch. -/
def nextToken (s : LexState) : Except String (Token × LexState) :=
  dispatch (skipComments (skipWhitespace s))

/-- `new Lexer(input)`: one constructor `readChar`, `currentLine = 1`. -/
def lexInit (input : String) : LexState :=
  ⟨input.data, 0, 1⟩

end lexer2

/-!
Syntax-tree model (`src/parser/ast.ts`).  The node classes become two
inductives; fields that the TS classes leave `null`able are `Option`s.
`VarDeclaration`'s constructor builds its `identifier` from the seeding
token (`new Identifier(token)`), which is reproduced at the use site.
The debug printer (`string(depth)`) is not part of any claim and is not
embedded.
-/

/-- Expression node variants of `ast.ts`.  `InfixExpression.right` is
`Option` because the parser assigns it the possibly-`null` result of
`parseExpression`. -/
inductive ExpressionNode where
  | Identifier (token : lexer2.Token) (value : String)
  | NumberNode (token : lexer2.Token) (value : String)
  | TypeExpression (token : lexer2.Token) (value : String)
  | PrefixExpression (token : lexer2.Token) (operator : String)
      (right : ExpressionNode)
  | InfixExpression (token : lexer2.Token) (operator : String)
      (left : ExpressionNode) (right : Option ExpressionNode)
deriving Repr

/-- Statement node variants of `ast.ts` used by this parser generation.
`VarDeclaration.type` is `none` iff no annotation was parsed (this
parser generation never populates it).  `VariablesStatement.value` is
the seeding token's literal. -/
inductive StatementNode where
  | VarDeclaration (token : lexer2.Token) (identifier : ExpressionNode)
      (value : Option ExpressionNode) (type : Option ExpressionNode)
  | VariablesStatement (token : lexer2.Token) (value : String)
      (declarations : List StatementNode)
deriving Repr

/-- `ErrorType` enum of `src/parser/errors.ts` (lines 7–13): exactly
these five recoverable diagnostics exist in this generation. -/
inductive ErrorType where
  | UnexpectedExpression
  | ExpectedNewLine
  | ExpectedVarDeclaration
  | ExpectedEqualSign
  | NoPrefixFound
deriving DecidableEq, Repr

/-- `ParsingError` of `errors.ts`.  The source also copies `token.row`
and `token.column` into the record; on this lexer generation's `Token`
there is no `row` field (the copy is `undefined` in JS), so only the
meaningful fields are kept: the kind, the offending token (which carries
`lineNumber`/`column`), and the message. -/
structure ParsingError where
  type : ErrorType
  token : lexer2.Token
  message : String
deriving DecidableEq, Repr

/-- `newParsingError(type, message, token)`. -/
def newParsingError (t : ErrorType) (msg : String) (tok : lexer2.Token) :
    ParsingError :=
  ⟨t, tok, msg⟩

/-- Rendering of a `TokenType` as the string the TS union carries, used
for interpolated diagnostics messages. -/
def tokenTypeStr : TokenType → String
  | .VAR => "VAR" | .VARIABLES => "VARIABLES" | .CONST => "CONST"
  | .CONSTANTES => "CONSTANTES" | .TIPOS => "TIPOS" | .TIPO => "TIPO"
  | .SUBRUTINA => "SUBRUTINA" | .RETORNA => "RETORNA" | .REF => "REF"
  | .INICIO_KW => "INICIO" | .FIN => "FIN" | .PROGRAMA => "PROGRAMA"
  | .SI => "SI" | .SINO => "SINO" | .MIENTRAS => "MIENTRAS"
  | .REPETIR => "REPETIR" | .PASO => "PASO" | .SALIR => "SALIR"
  | .EVAL => "EVAL" | .CASO => "CASO" | .LOGICO => "LOGICO"
  | .NUMERICO => "NUMERICO" | .CADENA => "CADENA"
  | .REGISTRO => "REGISTRO" | .VECTOR => "VECTOR" | .MATRIZ => "MATRIZ"
  | .AND => "AND" | .OR => "OR" | .NOT => "NOT"
  | .LIB => "LIB" | .LIBEXT => "LIBEXT" | .ARCHIVO => "ARCHIVO"
  | .SEMICOLON => "SEMICOLON" | .DQUOTE => "DQUOTE" | .SQUOTE => "SQUOTE"
  | .SLASH => "SLASH" | .ASTERISK => "ASTERISK" | .LBRACE => "LBRACE"
  | .RBRACE => "RBRACE" | .LPAREN => "LPAREN" | .RPAREN => "RPAREN"
  | .COLON => "COLON" | .ASSIGN => "ASSIGN" | .GT => "GT" | .LT => "LT"
  | .PLUS => "PLUS" | .MINUS => "MINUS" | .POW => "POW"
  | .NEWLINE => "NEWLINE" | .RBRACKET => "RBRACKET"
  | .LBRACKET => "LBRACKET" | .NUMBER => "NUMBER"
  | .IDENTIFIER => "IDENTIFIER" | .EOF => "EOF" | .ILLEGAL => "ILLEGAL"

/-!
Parser (`src/parser/errors.ts`, `class Parser`).  The mutable parser
object becomes an explicit state record threaded through every
operation; every `while`-loop and the `parseExpression` ↔
`parseInfixExpression` mutual recursion take a structurally decreasing
fuel argument (the source terminates because the scanner always makes
progress; fuel keeps the embedding executable).  Running out of fuel and
the scanner's fatal throw are distinguished halting outcomes.
-/

/- Precedence levels (`enum Precedence`, ascending order as in the
source; `PREFIXOP` is the source's prefix-operator level). -/
namespace Precedence

def MIN : Nat := 0
def EQUALS : Nat := 1
def GREATLESS : Nat := 2
def ADITION : Nat := 3
def DIVISION : Nat := 4
def PREFIXOP : Nat := 5
def PARENTESIS : Nat := 6
def MAX : Nat := 7

end Precedence

/-- `getPrecedence(token)`: note there is no `POW` case in the source —
`^` falls through to the `default` and gets `Precedence.MIN`. -/
def getPrecedence (token : lexer2.Token) : Nat :=
  match token.type with
  | .LT | .GT => Precedence.GREATLESS
  | .PLUS | .MINUS => Precedence.ADITION
  | .ASTERISK | .SLASH => Precedence.DIVISION
  | .LPAREN => Precedence.PARENTESIS
  | .NOT => Precedence.PREFIXOP
  | _ => Precedence.MIN

/-- Halting outcomes of a parser run: the scanner's fatal throw
(propagated uncaught, as in the source) or exhausted fuel. -/
inductive Halt where
  | fatal (msg : String)
  | fuel
deriving DecidableEq, Repr

/-- Parser state: the scanner, the two-token lookahead buffer
(`currentToken`, `nextToken`), and the accumulated results. -/
structure PState where
  lex : lexer2.LexState
  cur : lexer2.Token
  nxt : lexer2.Token
  ast : List StatementNode
  errors : List ParsingError
deriving Repr

/-- `advanceToken()`: shift `next` into `current`, pull a fresh token. -/
def advanceToken (s : PState) : Except Halt PState :=
  match lexer2.nextToken s.lex with
  | .error msg => .error (.fatal msg)
  | .ok (t, l) => .ok { s with lex := l, cur := s.nxt, nxt := t }

/-- `currentTokenIs(type)`. -/
def currentTokenIs (s : PState) (t : TokenType) : Bool :=
  s.cur.type = t

/-- `nextTokenIs(type)`. -/
def nextTokenIs (s : PState) (t : TokenType) : Bool :=
  s.nxt.type = t

/-- `isStatement(token)`: the fixed statement-starting kinds used for
synchronization. -/
def isStatement (t : TokenType) : Bool :=
  match t with
  | .EOF | .VARIABLES | .VAR | .CONSTANTES | .CONST | .RETORNA
  | .SUBRUTINA | .TIPOS | .TIPO | .INICIO_KW => true
  | _ => false

/-- Append a diagnostic (the `this.errors.push(error)` half of
`pushErrorAndRecover`). -/
def pushError (e : ParsingError) (s : PState) : PState :=
  { s with errors := s.errors ++ [e] }

/-- `skipUntilNextStatement()`: discard tokens until the upcoming token
is a statement start (or `EOF`), leaving it as `next`. -/
def skipUntilNextStatement : Nat → PState → Except Halt PState
  | 0, _ => .error .fuel
  | n + 1, s =>
    if isStatement s.nxt.type then .ok s
    else do
      let s' ← advanceToken s
      skipUntilNextStatement n s'

/-- `pushErrorAndRecover(error)`. -/
def pushErrorAndRecover (n : Nat) (e : ParsingError) (s : PState) :
    Except Halt PState :=
  skipUntilNextStatement n (pushError e s)

/-- `consumeNewLines()`: advance while the *next* token is a newline. -/
def consumeNewLines : Nat → PState → Except Halt PState
  | 0, _ => .error .fuel
  | n + 1, s =>
    if nextTokenIs s .NEWLINE then do
      let s' ← advanceToken s
      consumeNewLines n s'
    else .ok s

/-- The registered prefix handlers: only `IDENTIFIER` and `NUMBER`
(constructor lines 113–114). -/
inductive PrefixKind where
  | identifierK
  | numberK

/-- `prefixTable.get(type)`. -/
def prefixTable : TokenType → Option PrefixKind
  | .IDENTIFIER => some .identifierK
  | .NUMBER => some .numberK
  | _ => none

/-- `infixTable.has(type)`: `PLUS`, `MINUS`, `SLASH`, `ASTERISK`, `POW`
are registered (all to `parseInfixExpression`, lines 117–121). -/
def infixTable : TokenType → Bool
  | .PLUS | .MINUS | .SLASH | .ASTERISK | .POW => true
  | _ => false

/-- `parseIdentifier()`. -/
def parseIdentifier (s : PState) : ExpressionNode :=
  .Identifier s.cur s.cur.literal

/-- `parseNumber()`. -/
def parseNumber (s : PState) : ExpressionNode :=
  .NumberNode s.cur s.cur.literal

/-- Call frames of the `parseExpression` ↔ `parseInfixExpression`
mutual recursion (`exprF` = an entry into `parseExpression`, `loopF` =
one iteration of its Pratt `while`-loop, `infixF` = an entry into
`parseInfixExpression`).  The three source functions are mutually
recursive; they are realised below as one fuel-indexed worker
(`parseExprGo`) over these frames so that the embedding stays a plain
structural recursion, with the three source-named functions as direct
wrappers. -/
inductive ExprFrame where
  | exprF (curPrecedence : Nat)
  | loopF (curPrecedence : Nat) (exp : ExpressionNode)
  | infixF (left : ExpressionNode)

/-- Worker for the expression-parsing recursion; each frame's branch is
the body of the corresponding source function.  An `infixF` frame
always returns `some` node (as `parseInfixExpression` always returns an
`InfixExpression`); the `none` fallback in the loop branch is
unreachable. -/
def parseExprGo : Nat → ExprFrame → PState →
    Except Halt (Option ExpressionNode × PState)
  | 0, _, _ => .error .fuel
  | n + 1, .exprF curPrecedence, s =>
    -- `parseExpression(curPrecedence)`: prefix handler, then the loop.
    match prefixTable s.cur.type with
    | none => do
      let s' ← pushErrorAndRecover (n + 1)
        (newParsingError .NoPrefixFound
          ("No prefix parser for token " ++ tokenTypeStr s.cur.type)
          s.cur) s
      .ok (none, s')
    | some k =>
      let exp := match k with
        | .identifierK => parseIdentifier s
        | .numberK => parseNumber s
      parseExprGo n (.loopF curPrecedence exp) s
  | n + 1, .loopF curPrecedence exp, s =>
    -- `while (!nextTokenIs(SEMICOLON) && curPrecedence <
    -- getPrecedence(next))`.
    if ¬ nextTokenIs s .SEMICOLON ∧ curPrecedence < getPrecedence s.nxt then
      if infixTable s.nxt.type then do
        let s' ← advanceToken s
        let r ← parseExprGo n (.infixF exp) s'
        match r.1 with
        | some exp' => parseExprGo n (.loopF curPrecedence exp') r.2
        | none => parseExprGo n (.loopF curPrecedence exp) r.2
      else
        -- `console.log("No infix for: ...")`; defensive fallback.
        .ok (some exp, s)
    else .ok (some exp, s)
  | n + 1, .infixF left, s => do
    -- `parseInfixExpression(left)`.
    let token := s.cur
    let precedence := getPrecedence token
    let s' ← advanceToken s
    let r ← parseExprGo n (.exprF precedence) s'
    .ok (some (.InfixExpression token token.literal left r.1), r.2)

/-- `parseExpression(curPrecedence)`. -/
def parseExpression (n : Nat) (curPrecedence : Nat) (s : PState) :
    Except Halt (Option ExpressionNode × PState) :=
  parseExprGo n (.exprF curPrecedence) s

/-- `parseVariableStatement()`: one declaration.  The `:` type
annotation is *not* handled by this generation (the source carries a
`TODO` in its place): anything but `=` after the identifier records
`ExpectedEqualSign` and aborts the declaration. -/
def parseVariableStatement (n : Nat) (s : PState) :
    Except Halt (Option StatementNode × PState) := do
  let tok := s.cur
  let s ← advanceToken s
  if ¬ currentTokenIs s .ASSIGN then do
    let s ← pushErrorAndRecover n
      (newParsingError .ExpectedEqualSign
        ("Expected '=' after identifier, got " ++ s.cur.literal) s.cur) s
    .ok (none, s)
  else do
    let s ← advanceToken s
    let r ← parseExpression n Precedence.MIN s
    .ok (some (.VarDeclaration tok (.Identifier tok tok.literal) r.1 none),
         r.2)

/-- The `while (currentTokenIs(IDENTIFIER))` loop of
`parseVariablesDeclaration`, accumulating declarations; `none` means
the whole block was aborted (`return null`). -/
def parseVarsLoop : Nat → List StatementNode → PState →
    Except Halt (Option (List StatementNode) × PState)
  | 0, _, _ => .error .fuel
  | n + 1, acc, s =>
    if currentTokenIs s .IDENTIFIER then do
      let r ← parseVariableStatement (n + 1) s
      match r.1 with
      | none => do
        let s' ← pushErrorAndRecover (n + 1)
          (newParsingError .ExpectedVarDeclaration
            "Expected variable declaration" r.2.cur) r.2
        .ok (none, s')
      | some decl => do
        let s' ← consumeNewLines (n + 1) r.2
        let s' ← if nextTokenIs s' .IDENTIFIER then advanceToken s'
                 else .ok s'
        parseVarsLoop n (acc ++ [decl]) s'
    else .ok (some acc, s)

/-- `parseVariablesDeclaration()`: the `var`/`variables` block. -/
def parseVariablesDeclaration (n : Nat) (s : PState) :
    Except Halt (Option StatementNode × PState) := do
  let s ← if ¬ nextTokenIs s .NEWLINE then
            pushErrorAndRecover n
              (newParsingError .ExpectedNewLine "Expected New Line" s.cur) s
          else .ok s
  let s ← advanceToken s          -- skip over "VAR"
  let s ← consumeNewLines n s
  let s ← advanceToken s          -- skip over the last new line char
  let stmtTok := s.cur
  let r ← parseVarsLoop n [] s
  match r.1 with
  | none => .ok (none, r.2)
  | some decls =>
    .ok (some (.VariablesStatement stmtTok stmtTok.literal decls), r.2)

/-- `parseStatement()`: dispatch on `currentToken.type`. -/
def parseStatement (n : Nat) (s : PState) :
    Except Halt (Option StatementNode × PState) :=
  match s.cur.type with
  | .NEWLINE => .ok (none, s)
  | .VARIABLES | .VAR => parseVariablesDeclaration n s
  | .CONSTANTES | .CONST => .ok (none, s)
  | .RETORNA => .ok (none, s)
  | .SUBRUTINA => .ok (none, s)
  | .TIPOS | .TIPO => .ok (none, s)
  | .INICIO_KW => .ok (none, s)
  | _ => do
    let s' ← pushErrorAndRecover n
      (newParsingError .UnexpectedExpression
        ("Unexpected expression: " ++ s.cur.literal ++ " [" ++
          tokenTypeStr s.cur.type ++ "]") s.cur) s
    .ok (none, s')

/-- The `while (!nextTokenIs(EOF) && currentToken != null)` loop of
`parseProgram` (tokens are never `null` in this embedding). -/
def parseProgramLoop : Nat → PState → Except Halt PState
  | 0, _ => .error .fuel
  | n + 1, s =>
    if ¬ nextTokenIs s .EOF then do
      let r ← parseStatement (n + 1) s
      let s' := match r.1 with
        | some stmt => { r.2 with ast := r.2.ast ++ [stmt] }
        | none => r.2
      let s' ← advanceToken s'
      parseProgramLoop n s'
    else .ok s

/-- `parseProgram()`: runs the loop and returns whether the parse had
errors (`this.errors.length != 0`) together with the final state. -/
def parseProgram (n : Nat) (s : PState) : Except Halt (Bool × PState) :=
  (parseProgramLoop n s).map fun st => (st.errors.length != 0, st)

/-- `getErrors()`. -/
def getErrors (s : PState) : List ParsingError :=
  s.errors

/-- `getAst()`. -/
def getAst (s : PState) : List StatementNode :=
  s.ast

/-- `new Parser(lexer)`: load the first two tokens. -/
def newParser (input : String) : Except Halt PState :=
  match lexer2.nextToken (lexer2.lexInit input) with
  | .error msg => .error (.fatal msg)
  | .ok (t1, l1) =>
    match lexer2.nextToken l1 with
    | .error msg => .error (.fatal msg)
    | .ok (t2, l2) => .ok ⟨l2, t1, t2, [], []⟩

/-- Build a parser over `input` and run `parseProgram` with fuel `n`. -/
def parseSL (n : Nat) (input : String) : Except Halt (Bool × PState) := do
  let s ← newParser input
  parseProgram n s

/-!
Observation helpers: token-erased shapes of the produced trees and
diagnostics, used to state the concrete-scenario theorems compactly.
-/

/-- Token-erased expression shape; `nullS` stands for an absent
(`null`) operand. -/
inductive ExprShape where
  | identS (v : String)
  | numS (v : String)
  | typeS (v : String)
  | preS (op : String) (r : ExprShape)
  | infS (op : String) (l : ExprShape) (r : ExprShape)
  | nullS
deriving DecidableEq, Repr

mutual

/-- Shape of an expression node. -/
def exprShape : ExpressionNode → ExprShape
  | .Identifier _ v => .identS v
  | .NumberNode _ v => .numS v
  | .TypeExpression _ v => .typeS v
  | .PrefixExpression _ op r => .preS op (exprShape r)
  | .InfixExpression _ op l r => .infS op (exprShape l) (exprShapeOpt r)

/-- Shape of an optional (possibly `null`) expression. -/
def exprShapeOpt : Option ExpressionNode → ExprShape
  | none => .nullS
  | some e => exprShape e

end

/-- Shape of one `VarDeclaration`: identifier, initializer, type
annotation. -/
structure DeclShape where
  ident : ExprShape
  value : ExprShape
  ty : ExprShape
deriving DecidableEq, Repr

/-- Shape of one statement: a `VariablesStatement`'s literal and its
declarations' shapes (a nested `VariablesStatement` in a declaration
list cannot arise and is flattened to a marker). -/
inductive StmtShape where
  | varBlockS (value : String) (decls : List DeclShape)
  | varDeclS (d : DeclShape)
deriving DecidableEq, Repr

/-- Shape of one declaration-position statement. -/
def declShape : StatementNode → DeclShape
  | .VarDeclaration _ idE v t => ⟨exprShape idE, exprShapeOpt v, exprShapeOpt t⟩
  | .VariablesStatement _ _ _ => ⟨.nullS, .nullS, .nullS⟩

/-- Shape of one top-level statement. -/
def stmtShape : StatementNode → StmtShape
  | .VariablesStatement _ v decls => .varBlockS v (decls.map declShape)
  | .VarDeclaration tok idE v t =>
    .varDeclS (declShape (.VarDeclaration tok idE v t))

/-- Shapes of the returned AST. -/
def astShape (s : PState) : List StmtShape :=
  (getAst s).map stmtShape

/-- The kinds of the recorded diagnostics, in order. -/
def errKinds (s : PState) : List ErrorType :=
  (getErrors s).map (·.type)

/-- The kind and offending token's line of each diagnostic, in order. -/
def errKindLines (s : PState) : List (ErrorType × Nat) :=
  (getErrors s).map fun e => (e.type, e.token.lineNumber)

/-- Decidable observation of which constructor an `Except` result
took. -/
def isFatal : Except Halt (Bool × PState) → Bool
  | .error (.fatal _) => true
  | _ => false

/-!
Concrete literals for the C1 precedence scenario
(`2 + 3 * 4 - 8 / 2 ^ 2`): the scanner states and tokens the parser
steps through, and the expression nodes it builds.  They are spelled
out so that the staged evaluation proof below can quote intermediate
parser configurations directly.
-/

/-- A token of the C1 input (all on line 1). -/
def c1Tok (ty : TokenType) (lit : String) (col : Int) : lexer2.Token :=
  ⟨ty, lit, 1, col⟩

/-- A parser state over the C1 input with empty results. -/
def c1St (pos : Nat) (cur nxt : lexer2.Token) : PState :=
  ⟨⟨"2 + 3 * 4 - 8 / 2 ^ 2".data, pos, 1⟩, cur, nxt, [], []⟩

def c1S0 : PState := c1St 3 (c1Tok .NUMBER "2" 0) (c1Tok .PLUS "+" 1)
def c1S1 : PState := c1St 5 (c1Tok .PLUS "+" 1) (c1Tok .NUMBER "3" 4)
def c1S2 : PState := c1St 7 (c1Tok .NUMBER "3" 4) (c1Tok .ASTERISK "*" 5)
def c1S3 : PState := c1St 9 (c1Tok .ASTERISK "*" 5) (c1Tok .NUMBER "4" 8)
def c1S4 : PState := c1St 11 (c1Tok .NUMBER "4" 8) (c1Tok .MINUS "-" 9)
def c1S5 : PState := c1St 13 (c1Tok .MINUS "-" 9) (c1Tok .NUMBER "8" 12)
def c1S6 : PState := c1St 15 (c1Tok .NUMBER "8" 12) (c1Tok .SLASH "/" 13)
def c1S7 : PState := c1St 17 (c1Tok .SLASH "/" 13) (c1Tok .NUMBER "2" 16)
def c1S8 : PState := c1St 19 (c1Tok .NUMBER "2" 16) (c1Tok .POW "^" 17)

def c1N2 : ExpressionNode := .NumberNode (c1Tok .NUMBER "2" 0) "2"
def c1N3 : ExpressionNode := .NumberNode (c1Tok .NUMBER "3" 4) "3"
def c1N4 : ExpressionNode := .NumberNode (c1Tok .NUMBER "4" 8) "4"
def c1N8 : ExpressionNode := .NumberNode (c1Tok .NUMBER "8" 12) "8"
def c1N2r : ExpressionNode := .NumberNode (c1Tok .NUMBER "2" 16) "2"

/-- `3 * 4`. -/
def c1N34 : ExpressionNode :=
  .InfixExpression (c1Tok .ASTERISK "*" 5) "*" c1N3 (some c1N4)

/-- `2 + 3 * 4`. -/
def c1N234 : ExpressionNode :=
  .InfixExpression (c1Tok .PLUS "+" 1) "+" c1N2 (some c1N34)

/-- `8 / 2`. -/
def c1N82 : ExpressionNode :=
  .InfixExpression (c1Tok .SLASH "/" 13) "/" c1N8 (some c1N2r)

/-- `(2 + 3 * 4) - (8 / 2)` — the full tree the parser builds; the
trailing `^ 2` is not part of it. -/
def c1Tree : ExpressionNode :=
  .InfixExpression (c1Tok .MINUS "-" 9) "-" c1N234 (some c1N82)

/-!
## Theorems

First the scanner lemmas and claim theorems over `SL.lexer`
(`src/lexer.ts`), then the parser claim theorems over the embedding of
`src/parser/errors.ts` driven by `SL.lexer2`.
-/

namespace lexer

/-- A character at the cursor splits the remaining input. -/
theorem drop_cons_of_curCh {s : LexState} {c : Char} (hcc : curCh s = some c) :
    s.input.drop s.pos = c :: s.input.drop (s.pos + 1) := by
  rw [curCh, List.get?_eq_getElem?, List.getElem?_eq_some] at hcc
  obtain ⟨h1, h2⟩ := hcc
  rw [List.drop_eq_getElem_cons h1, h2]

/-- A letter differs from every non-letter character. -/
theorem ne_of_isLetter {c : Char} (h : isLetter c = true) (d : Char)
    (hd : isLetter d = false) : ¬ c = d := by
  intro e
  subst e
  rw [h] at hd
  exact Bool.noConfusion hd

/-- Letters are not skipped as whitespace. -/
theorem isLetter_not_skippable {c : Char} (h : isLetter c = true) :
    isSkippable c = false := by
  cases hs : isSkippable c with
  | false => rfl
  | true =>
    exfalso
    have : (c = ' ' ∨ c = '\t') ∨ c = '\r' := by
      simpa [isSkippable] using hs
    rcases this with (e | e) | e <;> (subst e; exact absurd h (by decide))

/-- A token produced together with `readChar` advanced the cursor. -/
theorem ok_readChar_adv {tok t : Token} {s s' : LexState}
    (h : (Except.ok (tok, readChar s) : Except String (Token × LexState)) =
      .ok (t, s')) :
    s.pos < s'.pos ∧ s'.input = s.input := by
  injection h with h'
  injection h' with ha hb
  subst hb
  exact ⟨Nat.lt_succ_self _, rfl⟩

/-- Every successful `dispatchChar` on the character at the cursor
strictly advances the cursor and preserves the input. -/
theorem dispatchChar_ok {c : Char} {s : LexState} {t : Token} {s' : LexState}
    (hcc : curCh s = some c) (h : dispatchChar c s = .ok (t, s')) :
    s.pos < s'.pos ∧ s'.input = s.input := by
  have hdrop := drop_cons_of_curCh hcc
  rw [dispatchChar] at h
  by_cases h1 : c = ';'
  · rw [if_pos h1] at h
    exact ok_readChar_adv h
  rw [if_neg h1] at h
  by_cases h2 : c = '"'
  · rw [if_pos h2] at h
    exact ok_readChar_adv h
  rw [if_neg h2] at h
  by_cases h3 : c = '\''
  · rw [if_pos h3] at h
    exact ok_readChar_adv h
  rw [if_neg h3] at h
  by_cases h4 : c = '/'
  · rw [if_pos h4] at h
    exact ok_readChar_adv h
  rw [if_neg h4] at h
  by_cases h5 : c = '*'
  · rw [if_pos h5] at h
    exact ok_readChar_adv h
  rw [if_neg h5] at h
  by_cases h6 : c = '{'
  · rw [if_pos h6] at h
    exact ok_readChar_adv h
  rw [if_neg h6] at h
  by_cases h7 : c = '}'
  · rw [if_pos h7] at h
    exact ok_readChar_adv h
  rw [if_neg h7] at h
  by_cases h8 : c = '['
  · rw [if_pos h8] at h
    exact ok_readChar_adv h
  rw [if_neg h8] at h
  by_cases h9 : c = ']'
  · rw [if_pos h9] at h
    exact ok_readChar_adv h
  rw [if_neg h9] at h
  by_cases h10 : c = '('
  · rw [if_pos h10] at h
    exact ok_readChar_adv h
  rw [if_neg h10] at h
  by_cases h11 : c = ')'
  · rw [if_pos h11] at h
    exact ok_readChar_adv h
  rw [if_neg h11] at h
  by_cases h12 : c = ':'
  · rw [if_pos h12] at h
    exact ok_readChar_adv h
  rw [if_neg h12] at h
  by_cases h13 : c = '='
  · rw [if_pos h13] at h
    exact ok_readChar_adv h
  rw [if_neg h13] at h
  by_cases h14 : c = '>'
  · rw [if_pos h14] at h
    exact ok_readChar_adv h
  rw [if_neg h14] at h
  by_cases h15 : c = '<'
  · rw [if_pos h15] at h
    exact ok_readChar_adv h
  rw [if_neg h15] at h
  by_cases h16 : c = '+'
  · rw [if_pos h16] at h
    exact ok_readChar_adv h
  rw [if_neg h16] at h
  by_cases h17 : c = '-'
  · rw [if_pos h17] at h
    exact ok_readChar_adv h
  rw [if_neg h17] at h
  by_cases h18 : c = '^'
  · rw [if_pos h18] at h
    exact ok_readChar_adv h
  rw [if_neg h18] at h
  by_cases h19 : c = '\n'
  · rw [if_pos h19] at h
    exact ok_readChar_adv h
  rw [if_neg h19] at h
  by_cases hL : isLetter c = true
  · rw [if_pos hL] at h
    by_cases hkw : (keywordType s = TokenType.LIB ||
        keywordType s = TokenType.LIBEXT ||
        keywordType s = TokenType.ARCHIVO) = true
    · rw [if_pos hkw] at h
      exact Except.noConfusion h
    · rw [if_neg hkw] at h
      injection h with h'
      injection h' with ha hb
      subst hb
      refine ⟨?_, rfl⟩
      have hic : isIdentChar c = true := by simp [isIdentChar, hL]
      simp only [readIdentifier, advanceWhile, hdrop, List.takeWhile_cons, hic,
        if_true, List.length_cons]
      omega
  rw [if_neg hL] at h
  by_cases hD : isDigit c = true
  · rw [if_pos hD] at h
    injection h with h'
    injection h' with ha hb
    subst hb
    refine ⟨?_, rfl⟩
    simp only [readNumber, advanceWhile, hdrop, List.takeWhile_cons, hD,
      if_true, List.length_cons]
    omega
  rw [if_neg hD] at h
  exact ok_readChar_adv h

/-- `advanceWhile` never moves the cursor backwards. -/
theorem advanceWhile_le (p : Char → Bool) (s : LexState) :
    s.pos ≤ (advanceWhile p s).pos :=
  Nat.le_add_right _ _

/-- `commentSkip` never moves the cursor backwards and keeps the
input. -/
theorem commentSkip_le (s : LexState) :
    s.pos ≤ (commentSkip s).pos ∧ (commentSkip s).input = s.input := by
  rw [commentSkip]
  split
  · refine ⟨?_, rfl⟩
    calc s.pos ≤ s.pos + 1 := Nat.le_succ _
    _ = (readChar s).pos := rfl
    _ ≤ (advanceWhile (fun c => c != '\n') (readChar s)).pos :=
        advanceWhile_le _ _
    _ ≤ (readChar (advanceWhile (fun c => c != '\n') (readChar s))).pos :=
        Nat.le_succ _
    _ ≤ _ := advanceWhile_le _ _
  · exact ⟨Nat.le_refl _, rfl⟩

/-- Every successful `nextToken` strictly advances the cursor and keeps
the input. -/
theorem nextToken_ok_adv {s : LexState} {t : Token} {s' : LexState}
    (h : nextToken s = .ok (t, s')) : s.pos < s'.pos ∧ s'.input = s.input := by
  rw [nextToken, dispatch] at h
  have hsw : s.pos ≤ (commentSkip (skipWhitespace s)).pos :=
    Nat.le_trans (advanceWhile_le _ _) (commentSkip_le (skipWhitespace s)).1
  have hswi : (commentSkip (skipWhitespace s)).input = s.input :=
    (commentSkip_le (skipWhitespace s)).2
  cases hcc : curCh (commentSkip (skipWhitespace s)) with
  | none =>
    rw [hcc] at h
    have := ok_readChar_adv h
    exact ⟨Nat.lt_of_le_of_lt hsw this.1, this.2.trans hswi⟩
  | some c =>
    rw [hcc] at h
    have := dispatchChar_ok hcc h
    exact ⟨Nat.lt_of_le_of_lt hsw this.1, this.2.trans hswi⟩

/-- An exhausted scanner produces exactly the `EOF` token and advances
by the trailing `readChar`. -/
theorem nextToken_exhausted (s : LexState) (h : s.input.length ≤ s.pos) :
    nextToken s = .ok (⟨.EOF, "", s.pos⟩, readChar s) := by
  have hd : s.input.drop s.pos = [] := List.drop_eq_nil_of_le h
  have hsw : skipWhitespace s = s := by
    simp [skipWhitespace, advanceWhile, hd]
  have hcc : curCh s = none := List.get?_eq_none.mpr h
  have hcs : commentSkip s = s := by
    simp [commentSkip, hcc]
  rw [nextToken, hsw, hcs, dispatch, hcc]


/-- On a letter, `dispatchChar` takes the identifier-or-keyword
branch. -/
theorem dispatchChar_letter {c : Char} (s : LexState)
    (hL : isLetter c = true) :
    dispatchChar c s =
      (if (keywordType s = TokenType.LIB ||
            keywordType s = TokenType.LIBEXT ||
            keywordType s = TokenType.ARCHIVO) = true then
        .error ("Token '" ++ (readIdentifier s).1 ++
          "' is reserved but not allowed.")
      else
        .ok (⟨keywordType s, (readIdentifier s).1, (readIdentifier s).2.pos⟩,
             (readIdentifier s).2)) := by
  rw [dispatchChar,
    if_neg (ne_of_isLetter hL ';' (by decide)),
    if_neg (ne_of_isLetter hL '"' (by decide)),
    if_neg (ne_of_isLetter hL '\'' (by decide)),
    if_neg (ne_of_isLetter hL '/' (by decide)),
    if_neg (ne_of_isLetter hL '*' (by decide)),
    if_neg (ne_of_isLetter hL '{' (by decide)),
    if_neg (ne_of_isLetter hL '}' (by decide)),
    if_neg (ne_of_isLetter hL '[' (by decide)),
    if_neg (ne_of_isLetter hL ']' (by decide)),
    if_neg (ne_of_isLetter hL '(' (by decide)),
    if_neg (ne_of_isLetter hL ')' (by decide)),
    if_neg (ne_of_isLetter hL ':' (by decide)),
    if_neg (ne_of_isLetter hL '=' (by decide)),
    if_neg (ne_of_isLetter hL '>' (by decide)),
    if_neg (ne_of_isLetter hL '<' (by decide)),
    if_neg (ne_of_isLetter hL '+' (by decide)),
    if_neg (ne_of_isLetter hL '-' (by decide)),
    if_neg (ne_of_isLetter hL '^' (by decide)),
    if_neg (ne_of_isLetter hL '\n' (by decide)),
    if_pos hL]

/-- A scanner poised on a letter runs the identifier branch: whitespace
skipping and the comment check are no-ops. -/
theorem nextToken_letter {s : LexState} {c : Char}
    (hcc : curCh s = some c) (hL : isLetter c = true) :
    nextToken s = dispatchChar c s := by
  have hdrop := drop_cons_of_curCh hcc
  have hsw : skipWhitespace s = s := by
    simp only [skipWhitespace, advanceWhile, hdrop, List.takeWhile_cons,
      isLetter_not_skippable hL, Bool.false_eq_true, if_false,
      List.length_nil, Nat.add_zero]
  have hcs : commentSkip s = s := by
    rw [commentSkip, if_neg]
    simp only [hcc, Option.some.injEq, Bool.and_eq_true, decide_eq_true_eq]
    intro hcontra
    exact ne_of_isLetter hL '/' (by decide) hcontra.1
  rw [nextToken, hsw, hcs, dispatch, hcc]


/-- Bounded stepping reaches `EOF` (or the fatal throw). -/
theorem runTokens_bound :
    ∀ (k : Nat) (s : LexState), s.input.length ≤ s.pos + k →
      match runTokens k s with
      | .ok (t, _) => t.type = TokenType.EOF
      | .error _ => True := by
  intro k
  induction k with
  | zero =>
    intro s h
    rw [runTokens, nextToken_exhausted s (by omega)]
  | succ k ih =>
    intro s h
    cases hnt : nextToken s with
    | error e =>
      rw [runTokens, hnt]
      exact trivial
    | ok r =>
      have hadv := nextToken_ok_adv hnt
      have := ih r.2 (by rw [hadv.2]; omega)
      rw [runTokens, hnt]
      exact this

/-- Claim C4: once the scanner has exhausted its input (the cursor is
at or past the end), every subsequent `nextToken()` call returns an
`EOF` token, for any number of repetitions. -/
theorem c4_eof_stable (s : LexState) (h : s.input.length ≤ s.pos) :
    ∀ n, match runTokens n s with
      | .ok (t, _) => t.type = TokenType.EOF
      | .error _ => False := by
  intro n
  induction n generalizing s with
  | zero => rw [runTokens, nextToken_exhausted s h]
  | succ n ih =>
    rw [runTokens, nextToken_exhausted s h]
    exact ih (readChar s) (by simp only [readChar]; omega)

/-- Witness for C4 at the empty input after two further calls. -/
theorem c4_eof_stable_witness :
    (lexInit "").input.length ≤ (lexInit "").pos ∧
    (match runTokens 2 (lexInit "") with
      | .ok (t, _) => t.type = TokenType.EOF
      | .error _ => False) :=
  ⟨by decide, c4_eof_stable (lexInit "") (by decide) 2⟩

/-- Claim C10: a `nextToken()` call on a scanner whose input is not yet
exhausted strictly advances the cursor whenever it returns a token, and
within `input.length - pos` further calls the scan reaches `EOF` (or the
fatal throw ends it), so scanning every finite input terminates. -/
theorem c10_scanner_progress (s : LexState) (h : s.pos < s.input.length) :
    (match nextToken s with
      | .ok (_, s') => s.pos < s'.pos
      | .error _ => True) ∧
    (match runTokens (s.input.length - s.pos) s with
      | .ok (t, _) => t.type = TokenType.EOF
      | .error _ => True) := by
  constructor
  · cases hnt : nextToken s with
    | error e => trivial
    | ok r => exact (nextToken_ok_adv hnt).1
  · exact runTokens_bound _ s (by omega)

/-- Witness for C10 on the two-character input `"ab"`. -/
theorem c10_scanner_progress_witness :
    (lexInit "ab").pos < (lexInit "ab").input.length ∧
    ((match nextToken (lexInit "ab") with
      | .ok (_, s') => (lexInit "ab").pos < s'.pos
      | .error _ => True) ∧
     (match runTokens ((lexInit "ab").input.length - (lexInit "ab").pos)
         (lexInit "ab") with
      | .ok (t, _) => t.type = TokenType.EOF
      | .error _ => True)) :=
  ⟨by decide, c10_scanner_progress (lexInit "ab") (by decide)⟩

/-- Claim C6: with the scanner poised on a letter, if the maximal
identifier lexeme lowercases to `lib`, `libext` or `archivo` (any
casing), `nextToken()` throws and produces no token; and if the
lowercased lexeme is not in the keyword table at all, the scan returns
an `IDENTIFIER` token carrying the lexeme. -/
theorem c6_disallowed_keywords (s : LexState) (c : Char)
    (hcc : curCh s = some c) (hL : isLetter c = true) :
    (toLowerCase (readIdentifier s).1 ∈ ["lib", "libext", "archivo"] →
      isLexError (nextToken s) = true) ∧
    (keywords.lookup (toLowerCase (readIdentifier s).1) = none →
      nextToken s = .ok (⟨.IDENTIFIER, (readIdentifier s).1,
        (readIdentifier s).2.pos⟩, (readIdentifier s).2)) := by
  rw [nextToken_letter hcc hL, dispatchChar_letter s hL]
  constructor
  · intro hmem
    have hkw : (keywordType s = TokenType.LIB ||
        keywordType s = TokenType.LIBEXT ||
        keywordType s = TokenType.ARCHIVO) = true := by
      simp only [List.mem_cons, List.not_mem_nil, or_false] at hmem
      rcases hmem with e | e | e <;>
        (rw [keywordType, e]; decide)
    rw [if_pos hkw]
    rfl
  · intro hnone
    have hty : keywordType s = TokenType.IDENTIFIER := by
      rw [keywordType, hnone]
      rfl
    rw [if_neg (by rw [hty]; decide), hty]

/-- Witness for C6: `"LiB"` throws, `"hello"` scans as an
identifier. -/
theorem c6_disallowed_keywords_witness :
    isLexError (nextToken (lexInit "LiB")) = true ∧
    nextToken (lexInit "hello") =
      .ok (⟨.IDENTIFIER, "hello", 5⟩, ⟨"hello".data, 5⟩) :=
  ⟨(c6_disallowed_keywords (lexInit "LiB") 'L' rfl (by decide)).1 (by decide),
   (c6_disallowed_keywords (lexInit "hello") 'h' rfl (by decide)).2 (by decide)⟩

/-- Claim C2 (refuting evidence, code bug): `lookAhead()` is an alias
of `nextToken()` and consumes the token it returns; on the repository's
own test input `"var x = 5;"` the `lookAhead()` call returns the `var`
token and the `nextToken()` call right after it returns the *next*
token (`x`), not a structurally equal one — the scanner does
double-advance, contradicting the spec and the lexer test
"should support lookAhead without advancing". -/
theorem c2_lookAhead_consumes :
    lookAhead (lexInit "var x = 5;") =
      .ok (⟨.VAR, "var", 3⟩, ⟨"var x = 5;".data, 3⟩) ∧
    nextToken ⟨"var x = 5;".data, 3⟩ =
      .ok (⟨.IDENTIFIER, "x", 5⟩, ⟨"var x = 5;".data, 5⟩) ∧
    (⟨.VAR, "var", 3⟩ : Token) ≠ ⟨.IDENTIFIER, "x", 5⟩ :=
  ⟨rfl, rfl, by decide⟩

end lexer

/-- Claim C5: whenever `parseProgram()` completes, the boolean it
returns is `true` exactly when at least one diagnostic was recorded,
i.e. exactly when `getErrors()` afterwards is non-empty. -/
theorem c5_parseProgram_true_iff_errors (fuel : Nat) (input : String) :
    match parseSL fuel input with
    | .ok (b, st) => (b = true ↔ getErrors st ≠ [])
    | .error _ => True := by
  rw [parseSL]
  cases hnp : newParser input with
  | error e => exact trivial
  | ok s0 =>
    show (match parseProgram fuel s0 with
      | .ok (b, st) => (b = true ↔ getErrors st ≠ [])
      | .error _ => True)
    rw [parseProgram]
    cases hpl : parseProgramLoop fuel s0 with
    | error e => exact trivial
    | ok st =>
      show (st.errors.length != 0) = true ↔ getErrors st ≠ []
      rw [getErrors]
      constructor
      · intro hb hnil
        rw [hnil] at hb
        exact absurd hb (by decide)
      · intro hne
        have hlen : st.errors.length ≠ 0 := by
          intro h0
          exact hne (List.length_eq_zero.mp h0)
        exact bne_iff_ne.mpr hlen

/-- Claim C9: parsing `var var1 = 1` (no newline after `var`) records
exactly one diagnostic, of kind `ExpectedNewLine`, whose offending token
(the `var` keyword) is on line 1; recovery discards the remaining tokens
without recording anything further. -/
theorem c9_var_missing_newline_single_diagnostic :
    (parseSL 99 "var var1 = 1").map
        (fun r => (r.1, errKindLines r.2)) =
      .ok (true, [(ErrorType.ExpectedNewLine, 1)]) := by
  rfl

/-- Claim C8 (counterexample): the input `"var\n"` parses with *no*
diagnostic recorded, yet the returned AST contains a
`VariablesStatement` whose declarations list is empty — an
empty-declarations block does occur in an error-free parse, refuting
the claim as stated. -/
theorem c8_empty_var_block_counterexample :
    (parseSL 99 "var\n").map (fun r => (getErrors r.2, astShape r.2)) =
      .ok ([], [.varBlockS "" []]) := by
  rfl

/-- Claim C8 (amended): a `VariablesStatement` with an empty
declarations list can occur even in an error-free parse — when no
identifier follows the `var` line (input `"var\n"`), the parser returns
the empty block, records no diagnostic, and `parseProgram()` reports
`false`. -/
theorem c8_empty_var_block_errorfree :
    (parseSL 99 "var\n").map (fun r => (r.1, errKinds r.2, astShape r.2)) =
      .ok (false, [], [.varBlockS "" []]) := by
  rfl

set_option maxHeartbeats 1000000 in
/-- Claim C1 (refuting evidence, code bug): for the initializer
`2 + 3 * 4 - 8 / 2 ^ 2`, `parseExpression` does make `*` and `/` bind
tighter than `+`/`-`, associates equal precedences left-to-right and
roots the tree at the last additive `-` — but `^` is *not* bound
tighter and is not consumed at all: `getPrecedence` has no `POW` case,
so `^` gets minimum precedence, the Pratt loop never fires for it, and
after the parse the upcoming token is still the `POW` operator (with no
diagnostic recorded by the expression parser itself).  The proof stages
the evaluation through the literal intermediate configurations
`c1S0`–`c1S8`. -/
theorem c1_pow_precedence_dropped :
    (do let s ← newParser "2 + 3 * 4 - 8 / 2 ^ 2"
        let r ← parseExpression 12 Precedence.MIN s
        .ok (exprShapeOpt r.1, r.2.nxt.type, errKinds r.2) :
      Except Halt (ExprShape × TokenType × List ErrorType)) =
    .ok (.infS "-"
          (.infS "+" (.numS "2") (.infS "*" (.numS "3") (.numS "4")))
          (.infS "/" (.numS "8") (.numS "2")),
         .POW, []) := by
  have hC : parseExprGo 10 (.infixF c1N2) c1S1 = .ok (some c1N234, c1S4) := by
    rfl
  have hK : parseExprGo 9 (.infixF c1N234) c1S5 = .ok (some c1Tree, c1S8) := by
    rfl
  have hR : parseExprGo 9 (.loopF Precedence.MIN c1Tree) c1S8 =
      .ok (some c1Tree, c1S8) := by rfl
  have hJ : parseExprGo 10 (.loopF Precedence.MIN c1N234) c1S4 =
      .ok (some c1Tree, c1S8) := by
    have step : parseExprGo 10 (.loopF Precedence.MIN c1N234) c1S4 =
        (parseExprGo 9 (.infixF c1N234) c1S5 >>= fun r =>
          match r.1 with
          | some e => parseExprGo 9 (.loopF Precedence.MIN e) r.2
          | none => parseExprGo 9 (.loopF Precedence.MIN c1N234) r.2) := by
      rfl
    rw [step, hK]
    exact hR
  have hB : parseExprGo 11 (.loopF Precedence.MIN c1N2) c1S0 =
      .ok (some c1Tree, c1S8) := by
    have step : parseExprGo 11 (.loopF Precedence.MIN c1N2) c1S0 =
        (parseExprGo 10 (.infixF c1N2) c1S1 >>= fun r =>
          match r.1 with
          | some e => parseExprGo 10 (.loopF Precedence.MIN e) r.2
          | none => parseExprGo 10 (.loopF Precedence.MIN c1N2) r.2) := by
      rfl
    rw [step, hC]
    exact hJ
  have top : (do let s ← newParser "2 + 3 * 4 - 8 / 2 ^ 2"
                 let r ← parseExpression 12 Precedence.MIN s
                 .ok (exprShapeOpt r.1, r.2.nxt.type, errKinds r.2) :
        Except Halt (ExprShape × TokenType × List ErrorType)) =
      (parseExprGo 11 (.loopF Precedence.MIN c1N2) c1S0 >>= fun r =>
        .ok (exprShapeOpt r.1, r.2.nxt.type, errKinds r.2)) := by
    rfl
  rw [top, hB]
  rfl

/-- Claim C3 (refuting evidence, code bug): this parser generation does
not parse `:` type annotations (the source has a `TODO` in their place
and its `ErrorType` has no `ExpectedTypeAnnotation`); on
`var⏎  x: numerico = 5` it records `ExpectedEqualSign` (at the `:`) and
then `ExpectedVarDeclaration`, aborts the block, and returns an empty
AST — instead of the claimed clean parse with a populated `type`
field. -/
theorem c3_type_annotation_unsupported :
    (parseSL 99 "var\n  x: numerico = 5").map
        (fun r => (r.1, errKinds r.2, astShape r.2)) =
      .ok (true, [.ExpectedEqualSign, .ExpectedVarDeclaration], []) := by
  rfl

set_option maxHeartbeats 1000000 in
/-- Claim C7 (refuting evidence, code bug): a newline directly after a
binary operator *does* terminate the expression in this parser
generation — no prefix handler is registered for `NEWLINE`, so the
initializer `5 +⏎5` records `NoPrefixFound` and leaves the `+` node
with a null right operand, instead of the claimed clean `5 + 5` parse.
The other half of the claim does hold: a newline between an operand and
a following operator ends the expression at that operand with no
diagnostic from the expression parser. -/
theorem c7_newline_after_operator :
    ((do let s ← newParser "5 + \n5"
         let r ← parseExpression 12 Precedence.MIN s
         .ok (exprShapeOpt r.1, errKinds r.2) :
       Except Halt (ExprShape × List ErrorType)) =
     .ok (.infS "+" (.numS "5") .nullS, [.NoPrefixFound])) ∧
    ((do let s ← newParser "5 \n+ 5"
         let r ← parseExpression 12 Precedence.MIN s
         .ok (exprShapeOpt r.1, errKinds r.2) :
       Except Halt (ExprShape × List ErrorType)) =
     .ok (.numS "5", [])) :=
  ⟨rfl, rfl⟩

end SL
